import Mathlib

/-!
Shallow embedding of the core of `posilva/simpleidentity`: the public-key
cache (`internal/adapters/output/providers/certs/cache.go`), the provider
registry (`internal/adapters/output/providers/factory.go`), the identity
providers (guest, google, apple), the DynamoDB accounts repository and the
authentication orchestrator (`internal/core/services/auth_service.go`).

Machine integers are modelled as `Nat`/`Int`; Go error values as the
inductive `GoError` with `errorIs` mirroring `errors.Is`; fallible Go
functions return `Except` or a Go-style `value × Option GoError` pair.
External I/O (HTTP, DynamoDB, JWT cryptography) is abstracted as function
parameters standing for the environment; everything the repository's own
code computes is translated directly from the source.
-/

/-- Modelled from the spec: the Go file declaring `domain.AccountID` and
`domain.EmptyAccountID` is not among the sources (only its users are).
The spec says an AccountID is an opaque string identifier whose empty
value is a distinguished "no account" sentinel. -/
abbrev AccountID := String

/-- Modelled from the spec: the empty "no account" sentinel value. -/
def EmptyAccountID : AccountID := ""

/-- `domain.ProviderType` is a Go string type. -/
abbrev ProviderType := String

def ProviderTypeGuest : ProviderType := "guest"

def ProviderTypeGoogle : ProviderType := "google"

def ProviderTypeApple : ProviderType := "apple"

/-! ## Go error model

`domain/errors.go` declares the sentinel errors with `errors.New`; the
repository adapter adds the internal `errTransactionErrorConditionFailed`
sentinel. `fmt.Errorf` with `%w` is `wrap`; `errors.New` / `fmt.Errorf`
without `%w` is `msg`. The AWS SDK `types.TransactionCanceledException`
is the `transactionCanceled` constructor (its `CancellationReasons`
carry optional `Code`/`Message` strings, as in the SDK). -/

structure CancellationReason where
  code : Option String
  message : Option String
deriving DecidableEq

inductive GoError where
  | errProviderNotFound
  | errAccountNotFound
  | errAlreadyExists
  | errMissingAuthData
  | errTransactionConditionFailed
  | msg (s : String)
  | wrap (s : String) (inner : GoError)
  | transactionCanceled (reasons : List CancellationReason)
deriving DecidableEq

/-- `errors.Is`: walk the unwrap chain looking for the target sentinel. -/
def errorIs : GoError → GoError → Bool
  | GoError.wrap s inner, target =>
      decide (GoError.wrap s inner = target) || errorIs inner target
  | e, target => decide (e = target)

/-! ## Public-key cache (`certs/cache.go`)

An instant is a `Nat` of milliseconds since the Unix epoch (the model is
restricted to instants at or after the epoch, which covers every time the
program can observe); `time.Time.Unix()` floors to whole seconds. The Go
`cacheEntry.pubKey` field is a `*rsa.PublicKey`, i.e. a possibly nil
pointer, hence `Option RSAPublicKey`. -/

structure RSAPublicKey where
  n : Nat
  e : Int
deriving DecidableEq

/-- A cache entry: the stored key pointer and `expiresAt` in Unix seconds. -/
structure CacheEntry where
  pubKey : Option RSAPublicKey
  expiresAt : Nat
deriving DecidableEq

/-- The `simpleCacheManager.cache` map. -/
def CacheState := String → Option CacheEntry

/-- `time.Time.Unix()` on an instant given in milliseconds. -/
def unixSec (ms : Nat) : Nat := ms / 1000

/-- The empty map created by `NewSimpleCacheManager`. -/
def cacheEmpty : CacheState := fun _ => none

/-- `simpleCacheManager.Get`: hit only when the entry exists and
`time.Now().Unix() < e.expiresAt` (strict, whole seconds). -/
def cacheGet (c : CacheState) (nowMs : Nat) (id : String) : Option RSAPublicKey :=
  match c id with
  | some e => if unixSec nowMs < e.expiresAt then e.pubKey else none
  | none => none

/-- `simpleCacheManager.Add`: unconditional insert/overwrite storing
`expiresAt.UTC().Unix()` (UTC does not change the Unix second). -/
def cacheAdd (c : CacheState) (id : String) (pub : Option RSAPublicKey)
    (expiresAtMs : Nat) : CacheState :=
  fun k => if k = id then some { pubKey := pub, expiresAt := unixSec expiresAtMs } else c k

/-- `simpleCacheManager.Reset`: deletes every key. -/
def cacheReset (_ : CacheState) : CacheState := fun _ => none

/-- A concrete public key used in closed witnesses and counterexamples. -/
def sampleKey : RSAPublicKey := { n := 3233, e := 17 }

/-- C7 counterexample: `Add` at 10000 ms with expiry 10500 ms (in the
future); a `Get` at 10200 ms — strictly before the expiry instant — returns
nil because both instants fall in Unix second 10, refuting "returns that
key at any time strictly before t". -/
theorem cacheGet_before_expiry_can_be_nil :
    10000 < 10500 ∧ 10200 < 10500 ∧
      cacheGet (cacheAdd cacheEmpty "kid" (some sampleKey) 10500) 10200 "kid" = none := by
  refine ⟨by norm_num, by norm_num, ?_⟩
  rfl

/-- C7 (amended): after `Add(k, key, t)` a `Get(k)` returns the stored key
at any instant whose Unix second strictly precedes the Unix second of `t`,
and nil at any instant at or after `t`; `Get` of a never-added key is nil;
after `Reset` every `Get` is nil. -/
theorem cache_contract_second_granularity
    (c : CacheState) (k : String) (pub : Option RSAPublicKey)
    (tMs nowMs : Nat) :
    (unixSec nowMs < unixSec tMs →
      cacheGet (cacheAdd c k pub tMs) nowMs k = pub) ∧
    (tMs ≤ nowMs →
      cacheGet (cacheAdd c k pub tMs) nowMs k = none) ∧
    cacheGet cacheEmpty nowMs k = none ∧
    cacheGet (cacheReset c) nowMs k = none := by
  refine ⟨?_, ?_, rfl, rfl⟩
  · intro h
    simp [cacheGet, cacheAdd, h]
  · intro h
    have hle : unixSec tMs ≤ unixSec nowMs := Nat.div_le_div_right h
    simp [cacheGet, cacheAdd, Nat.not_lt.mpr hle]

/-- Witness for the amended C7 at concrete inputs. -/
theorem cache_contract_second_granularity_witness :
    cacheGet (cacheAdd cacheEmpty "a" (some sampleKey) 20000) 15000 "a" = some sampleKey ∧
    cacheGet (cacheAdd cacheEmpty "a" (some sampleKey) 20000) 25000 "a" = none :=
  ⟨(cache_contract_second_granularity cacheEmpty "a" (some sampleKey) 20000 15000).1
      (by norm_num [unixSec]),
   (cache_contract_second_granularity cacheEmpty "a" (some sampleKey) 20000 25000).2.1
      (by norm_num)⟩

/-- C9: expiry is at whole-second granularity with a strict comparison: an
entry whose stored expiry second is at most the current Unix second is
unretrievable; `Get` at the exact expiry instant is nil; an `Add` whose
expiry lies within the current second yields an immediately nil `Get`. -/
theorem cache_expiry_second_granularity
    (c : CacheState) (k : String) (e : CacheEntry)
    (pub : Option RSAPublicKey) (nowMs expMs : Nat) :
    (c k = some e → e.expiresAt ≤ unixSec nowMs → cacheGet c nowMs k = none) ∧
    cacheGet (cacheAdd c k pub expMs) expMs k = none ∧
    (nowMs ≤ expMs → unixSec expMs = unixSec nowMs →
      cacheGet (cacheAdd c k pub expMs) nowMs k = none) := by
  refine ⟨?_, ?_, ?_⟩
  · intro hk hle
    simp [cacheGet, hk, Nat.not_lt.mpr hle]
  · simp [cacheGet, cacheAdd]
  · intro _ hsec
    simp [cacheGet, cacheAdd, hsec]

/-- Witness for C9 at concrete inputs: an entry expiring at second 10 is
gone at 10200 ms; an entry added with expiry 10900 ms is nil immediately
at 10200 ms (same second). -/
theorem cache_expiry_second_granularity_witness :
    cacheGet (cacheAdd cacheEmpty "k" (some sampleKey) 10000) 10200 "k" = none ∧
    cacheGet (cacheAdd cacheEmpty "k" (some sampleKey) 10900) 10200 "k" = none :=
  ⟨(cache_expiry_second_granularity (cacheAdd cacheEmpty "k" (some sampleKey) 10000)
      "k" { pubKey := some sampleKey, expiresAt := 10 } (some sampleKey) 10200 10000).1
      rfl (by norm_num [unixSec]),
   (cache_expiry_second_granularity cacheEmpty "k"
      { pubKey := some sampleKey, expiresAt := 10 } (some sampleKey) 10200 10900).2.2
      (by norm_num) (by norm_num [unixSec])⟩

/-! ## DynamoDB accounts repository (second, simpleidentity variant in the
repository adapter source: composite-key table design)

The DynamoDB client is abstracted as functions: a query function from the
built key condition to either an error or the matched items (already
unmarshalled — the record shapes written by this adapter always unmarshal,
so the dead unmarshal-error branch is not modelled), and a transact-write
function from the built input to an optional error. -/

/-- Unmarshalled `DDBAccountProviderRecordData`. -/
structure DDBAccountProviderRecordData where
  accountID : String
  providerType : String
  providerID : String
  dateCreatedISO8601 : String
deriving DecidableEq

/-- `DDBAccountProviderRecord`: the data plus the table PK/SK. -/
structure DDBAccountProviderRecord where
  data : DDBAccountProviderRecordData
  pk : String
  sk : String
deriving DecidableEq

/-- The condition expression built by `expression.AttributeNotExists` and
`expression.And`. -/
inductive DDBCondition where
  | attrNotExists (name : String)
  | and (a b : DDBCondition)
deriving DecidableEq

/-- One `types.Put` inside a `TransactWriteItemsInput`. -/
structure TransactPut where
  tableName : String
  item : DDBAccountProviderRecord
  condition : DDBCondition
deriving DecidableEq

/-- `dynamodb.TransactWriteItemsInput` restricted to the puts this adapter
issues. -/
structure TransactWriteItemsInput where
  transactItems : List TransactPut
deriving DecidableEq

/-- The key condition of the resolve query: equality on the table PK and SK. -/
structure QueryKey where
  pk : String
  sk : String
deriving DecidableEq

/-- `fmt.Sprintf(AccountProviderSKPrefixFmt, providerType, providerID)`,
i.e. `PVDR#%s#%s`. -/
def providerIdentityKey (pt : ProviderType) (pid : String) : String :=
  "PVDR#" ++ pt ++ "#" ++ pid

/-- `fmt.Sprintf(AccountProviderPKPrefixFmt, accountID)`, i.e. `ACNT#%s`. -/
def accountKey (aid : String) : String := "ACNT#" ++ aid

/-- `AccountIdentitySKName`. -/
def accountIdentitySKName : String := "IDENTITY"

/-- `attribute_not_exists(PK) AND attribute_not_exists(SK)`: the condition
built for both puts (`identityCond` and `accountCond` in the source). -/
def condPKSKNotExists : DDBCondition :=
  DDBCondition.and (DDBCondition.attrNotExists "PK") (DDBCondition.attrNotExists "SK")

/-- `dynamoDBAccountsRepository.ResolveIDByProvider`: point query on
(PVDR#pt#pid, IDENTITY); zero items is `ErrAccountNotFound`; more than one
item is a hard error; exactly one item yields its AccountID. -/
def resolveIDByProvider
    (query : QueryKey → Except GoError (List DDBAccountProviderRecordData))
    (pt : ProviderType) (pid : String) : AccountID × Option GoError :=
  match query { pk := providerIdentityKey pt pid, sk := accountIdentitySKName } with
  | Except.error e => (EmptyAccountID, some (GoError.wrap "failed to query DynamoDB" e))
  | Except.ok items =>
    match items with
    | [] => (EmptyAccountID, some GoError.errAccountNotFound)
    | [record] => (record.accountID, none)
    | _ => (EmptyAccountID, some (GoError.msg
        ("unexpected multiple accounts found for provider type " ++ pt
          ++ " and provider ID " ++ pid)))

/-- `enrichErrorWithOperationContext`: scan the cancellation reasons for
the first whose code is present and not "None"; rebuild the error around a
sentinel when the code is "ConditionalCheckFailed". -/
def enrichLoop (operations : List String) (i : Nat) :
    List CancellationReason → Option GoError
  | [] => none
  | r :: rest =>
    match r.code with
    | some c =>
      if c ≠ "None" then
        let operationName := operations.getD i "Unknown"
        let reasonStr := c ++ (match r.message with
          | some m => ": " ++ m
          | none => "")
        let inner := if c = "ConditionalCheckFailed" then
            GoError.errTransactionConditionFailed
          else GoError.msg ("transaction error " ++ c)
        some (GoError.wrap ("operation: " ++ operationName ++ ", index: "
          ++ toString i ++ ", reason: " ++ reasonStr) inner)
      else enrichLoop operations (i + 1) rest
    | none => enrichLoop operations (i + 1) rest

/-- `enrichErrorWithOperationContext` proper: only a
`TransactionCanceledException` with some non-"None" reason is rewritten
(the SDK hands the exception to the adapter unwrapped, so `errors.As` is a
top-level match here). -/
def enrichErrorWithOperationContext (err : GoError) (operations : List String) : GoError :=
  match err with
  | GoError.transactionCanceled reasons => (enrichLoop operations 0 reasons).getD err
  | _ => err

/-- `Create`: builds the two conditional puts of the transaction. The id
generator output and the RFC3339 timestamp are parameters (`GenerateID`
and `time.Now` are environment effects). -/
def buildCreateTransactInput (tableName : String) (pt : ProviderType)
    (pid : String) (genID : String) (nowISO : String) : TransactWriteItemsInput :=
  let data : DDBAccountProviderRecordData :=
    { accountID := genID, providerType := pt, providerID := pid,
      dateCreatedISO8601 := nowISO }
  { transactItems :=
      [ { tableName := tableName,
          item := { data := data, pk := providerIdentityKey pt pid,
                    sk := accountIdentitySKName },
          condition := condPKSKNotExists },
        { tableName := tableName,
          item := { data := data, pk := accountKey genID,
                    sk := providerIdentityKey pt pid },
          condition := condPKSKNotExists } ] }

/-- `dynamoDBAccountsRepository.Create`: one `TransactWriteItems` call;
on failure the error is enriched, a conditional-check failure is mapped to
`ErrProviderIDOrAccountAlreadyExists`, and the empty AccountID is
returned. The second component of the result is the list of transact-write
calls issued to the client. -/
def repoCreate (client : TransactWriteItemsInput → Option GoError)
    (tableName : String) (pt : ProviderType) (pid : String)
    (genID : String) (nowISO : String) :
    (AccountID × Option GoError) × List TransactWriteItemsInput :=
  let input := buildCreateTransactInput tableName pt pid genID nowISO
  match client input with
  | none => ((genID, none), [input])
  | some err =>
    let tErr := enrichErrorWithOperationContext err
      ["PUT Provider Identity data", "PUT Account data"]
    let tErr2 := if errorIs tErr GoError.errTransactionConditionFailed then
        GoError.errAlreadyExists
      else tErr
    ((EmptyAccountID,
      some (GoError.wrap "failed to execute transaction when creating account" tErr2)),
      [input])

/-- A transaction rejected by a conditional-check failure: every present
cancellation reason code is "None" or "ConditionalCheckFailed", and at
least one is "ConditionalCheckFailed". -/
def CCFRejection (reasons : List CancellationReason) : Prop :=
  (∀ r ∈ reasons, r.code = none ∨ r.code = some "None"
      ∨ r.code = some "ConditionalCheckFailed") ∧
    ∃ r ∈ reasons, r.code = some "ConditionalCheckFailed"

lemma enrichLoop_ccf (ops : List String) (reasons : List CancellationReason)
    (hall : ∀ r ∈ reasons, r.code = none ∨ r.code = some "None"
      ∨ r.code = some "ConditionalCheckFailed")
    (hex : ∃ r ∈ reasons, r.code = some "ConditionalCheckFailed") :
    ∀ i, ∃ s, enrichLoop ops i reasons
      = some (GoError.wrap s GoError.errTransactionConditionFailed) := by
  induction reasons with
  | nil => rcases hex with ⟨r, hr, _⟩; cases hr
  | cons r rest ih =>
    intro i
    rcases hall r (List.mem_cons_self r rest) with h0 | h0 | h0
    · have hex2 : ∃ q ∈ rest, q.code = some "ConditionalCheckFailed" := by
        rcases hex with ⟨q, hq, hcode⟩
        rcases List.mem_cons.mp hq with rfl | hq2
        · rw [h0] at hcode; cases hcode
        · exact ⟨q, hq2, hcode⟩
      have hall2 : ∀ q ∈ rest, q.code = none ∨ q.code = some "None"
          ∨ q.code = some "ConditionalCheckFailed" := fun q hq =>
        hall q (List.mem_cons_of_mem r hq)
      rcases ih hall2 hex2 (i + 1) with ⟨s, hs⟩
      exact ⟨s, by simpa [enrichLoop, h0] using hs⟩
    · have hex2 : ∃ q ∈ rest, q.code = some "ConditionalCheckFailed" := by
        rcases hex with ⟨q, hq, hcode⟩
        rcases List.mem_cons.mp hq with rfl | hq2
        · rw [h0] at hcode
          simp at hcode
        · exact ⟨q, hq2, hcode⟩
      have hall2 : ∀ q ∈ rest, q.code = none ∨ q.code = some "None"
          ∨ q.code = some "ConditionalCheckFailed" := fun q hq =>
        hall q (List.mem_cons_of_mem r hq)
      rcases ih hall2 hex2 (i + 1) with ⟨s, hs⟩
      exact ⟨s, by simpa [enrichLoop, h0] using hs⟩
    · refine ⟨ "operation: " ++ ops.getD i "Unknown" ++ ", index: " ++ toString i
        ++ ", reason: " ++ ("ConditionalCheckFailed" ++ (match r.message with
          | some m => ": " ++ m
          | none => "")), ?_⟩
      simp [enrichLoop, h0]

/-- C1: `Create` issues exactly one transactional write carrying exactly
two conditional puts — the identity record keyed by
(`PVDR#providerType#externalID`, `IDENTITY`) and the account record keyed
by (`ACNT#accountID`, `PVDR#providerType#externalID`), each put guarded by
`attribute_not_exists(PK) AND attribute_not_exists(SK)` — and whenever the
store rejects that transaction with a conditional-check failure, `Create`
returns the empty AccountID and an error matching
`ErrProviderIDOrAccountAlreadyExists` under `errors.Is`. -/
theorem create_single_conditional_transact_and_race
    (client : TransactWriteItemsInput → Option GoError)
    (tableName pt pid genID nowISO : String) :
    (repoCreate client tableName pt pid genID nowISO).2
        = [buildCreateTransactInput tableName pt pid genID nowISO] ∧
    (buildCreateTransactInput tableName pt pid genID nowISO).transactItems =
      [ { tableName := tableName,
          item := { data := { accountID := genID, providerType := pt,
                              providerID := pid, dateCreatedISO8601 := nowISO },
                    pk := providerIdentityKey pt pid,
                    sk := accountIdentitySKName },
          condition := condPKSKNotExists },
        { tableName := tableName,
          item := { data := { accountID := genID, providerType := pt,
                              providerID := pid, dateCreatedISO8601 := nowISO },
                    pk := accountKey genID,
                    sk := providerIdentityKey pt pid },
          condition := condPKSKNotExists } ] ∧
    (∀ reasons,
      client (buildCreateTransactInput tableName pt pid genID nowISO)
          = some (GoError.transactionCanceled reasons) →
      CCFRejection reasons →
      ∃ E, (repoCreate client tableName pt pid genID nowISO).1
          = (EmptyAccountID, some E)
        ∧ errorIs E GoError.errAlreadyExists = true) := by
  refine ⟨?_, rfl, ?_⟩
  · simp only [repoCreate]
    cases h : client (buildCreateTransactInput tableName pt pid genID nowISO) <;>
      simp [h]
  · intro reasons hclient hccf
    rcases enrichLoop_ccf ["PUT Provider Identity data", "PUT Account data"]
      reasons hccf.1 hccf.2 0 with ⟨s, hs⟩
    have herr : errorIs (GoError.wrap s GoError.errTransactionConditionFailed)
        GoError.errTransactionConditionFailed = true := by simp [errorIs]
    refine ⟨GoError.wrap "failed to execute transaction when creating account"
      GoError.errAlreadyExists, ?_, by simp [errorIs]⟩
    simp only [repoCreate]
    rw [hclient]
    simp [enrichErrorWithOperationContext, hs, herr]

/-- A client that rejects every transaction with a conditional-check
failure, used in the C1 witness. -/
def ccfClient : TransactWriteItemsInput → Option GoError :=
  fun _ => some (GoError.transactionCanceled
    [ { code := some "ConditionalCheckFailed",
        message := some "The conditional request failed" },
      { code := some "None", message := none } ])

/-- Witness for C1: under `ccfClient`, `Create` returns the empty
AccountID and an error matching the already-exists sentinel. -/
theorem create_single_conditional_transact_and_race_witness :
    ∃ E, (repoCreate ccfClient "accounts" "guest" "device-1" "aid-1"
        "2024-01-01T00:00:00Z").1 = (EmptyAccountID, some E)
      ∧ errorIs E GoError.errAlreadyExists = true :=
  (create_single_conditional_transact_and_race ccfClient "accounts" "guest"
    "device-1" "aid-1" "2024-01-01T00:00:00Z").2.2
    [ { code := some "ConditionalCheckFailed",
        message := some "The conditional request failed" },
      { code := some "None", message := none } ]
    rfl
    (by constructor
        · intro r hr
          simp only [List.mem_cons, List.not_mem_nil, or_false] at hr
          rcases hr with rfl | rfl
          · right; right; rfl
          · right; left; rfl
        · exact ⟨{ code := some "ConditionalCheckFailed",
                   message := some "The conditional request failed" },
            List.mem_cons_self _ _, rfl⟩)

/-- C3: `ResolveIDByProvider` returns the `AccountNotFound` sentinel when
the query matches zero records, the single record's AccountID when it
matches exactly one, and a non-sentinel error (matching none of the three
domain sentinels under `errors.Is`) when it matches two or more. -/
theorem resolveIDByProvider_zero_one_many
    (query : QueryKey → Except GoError (List DDBAccountProviderRecordData))
    (pt pid : String) :
    (query { pk := providerIdentityKey pt pid, sk := accountIdentitySKName }
        = Except.ok [] →
      resolveIDByProvider query pt pid
        = (EmptyAccountID, some GoError.errAccountNotFound)) ∧
    (∀ record,
      query { pk := providerIdentityKey pt pid, sk := accountIdentitySKName }
          = Except.ok [record] →
      resolveIDByProvider query pt pid = (record.accountID, none)) ∧
    (∀ items,
      query { pk := providerIdentityKey pt pid, sk := accountIdentitySKName }
          = Except.ok items →
      2 ≤ items.length →
      ∃ E, resolveIDByProvider query pt pid = (EmptyAccountID, some E)
        ∧ errorIs E GoError.errAccountNotFound = false
        ∧ errorIs E GoError.errProviderNotFound = false
        ∧ errorIs E GoError.errAlreadyExists = false) := by
  refine ⟨?_, ?_, ?_⟩
  · intro h
    unfold resolveIDByProvider
    rw [h]
  · intro record h
    unfold resolveIDByProvider
    rw [h]
  · intro items h hlen
    match items, hlen with
    | a :: b :: rest, _ =>
      refine ⟨GoError.msg ("unexpected multiple accounts found for provider type "
        ++ pt ++ " and provider ID " ++ pid), ?_, by simp [errorIs],
        by simp [errorIs], by simp [errorIs]⟩
      unfold resolveIDByProvider
      rw [h]

/-- Witness for C3: all three cases at concrete query results. -/
theorem resolveIDByProvider_zero_one_many_witness :
    resolveIDByProvider (fun _ => Except.ok []) "guest" "device-1"
        = (EmptyAccountID, some GoError.errAccountNotFound) ∧
    resolveIDByProvider (fun _ => Except.ok
        [{ accountID := "aid-1", providerType := "guest", providerID := "device-1",
           dateCreatedISO8601 := "2024-01-01T00:00:00Z" }]) "guest" "device-1"
        = ("aid-1", none) ∧
    ∃ E, resolveIDByProvider (fun _ => Except.ok
        [{ accountID := "aid-1", providerType := "guest", providerID := "device-1",
           dateCreatedISO8601 := "2024-01-01T00:00:00Z" },
         { accountID := "aid-2", providerType := "guest", providerID := "device-1",
           dateCreatedISO8601 := "2024-01-02T00:00:00Z" }]) "guest" "device-1"
        = (EmptyAccountID, some E)
      ∧ errorIs E GoError.errAccountNotFound = false :=
  ⟨(resolveIDByProvider_zero_one_many (fun _ => Except.ok []) "guest" "device-1").1 rfl,
   (resolveIDByProvider_zero_one_many (fun _ => Except.ok
      [{ accountID := "aid-1", providerType := "guest", providerID := "device-1",
         dateCreatedISO8601 := "2024-01-01T00:00:00Z" }]) "guest" "device-1").2.1
      { accountID := "aid-1", providerType := "guest", providerID := "device-1",
        dateCreatedISO8601 := "2024-01-01T00:00:00Z" } rfl,
   by
    rcases (resolveIDByProvider_zero_one_many (fun _ => Except.ok
        [{ accountID := "aid-1", providerType := "guest", providerID := "device-1",
           dateCreatedISO8601 := "2024-01-01T00:00:00Z" },
         { accountID := "aid-2", providerType := "guest", providerID := "device-1",
           dateCreatedISO8601 := "2024-01-02T00:00:00Z" }]) "guest" "device-1").2.2
        [{ accountID := "aid-1", providerType := "guest", providerID := "device-1",
           dateCreatedISO8601 := "2024-01-01T00:00:00Z" },
         { accountID := "aid-2", providerType := "guest", providerID := "device-1",
           dateCreatedISO8601 := "2024-01-02T00:00:00Z" }] rfl (by norm_num)
      with ⟨E, h1, h2, _⟩
    exact ⟨E, h1, h2⟩⟩

/-! ## Identity providers

`AuthData` is the Go `map[string]string` credential map. The OAuth code
exchange and the JWT parse (signature and registered-claims validation by
`jwt.ParseWithClaims` with its key function and 30 s leeway) are external
effects, abstracted as function parameters. A raw identity token carries
the claims the provider JSON-decodes into its own claims struct; the
Google struct has no nonce field, so decoding drops the nonce. -/

abbrev AuthData := List (String × String)

/-- Go map lookup with its ok flag. -/
def mapGet : AuthData → String → Option String
  | [], _ => none
  | (k, v) :: rest, key => if k = key then some v else mapGet rest key

/-- The claim set a signed identity token can carry (union of the fields
either provider's claims struct can decode). -/
structure RawIDTokenClaims where
  issuer : String
  subject : String
  audience : String
  email : String
  expiry : Int
  issuedAt : Int
  nonce : String
  nonceSupported : Bool
  emailVerified : Bool
  isPrivateEmail : Bool
  realUserStatus : Int
deriving DecidableEq

/-- Outcome of `jwt.ParseWithClaims`: the decoded claims and the `Valid`
flag (signature plus time-based registered claims, with leeway). -/
structure JWTToken where
  valid : Bool
  claims : RawIDTokenClaims
deriving DecidableEq

/-- `googleIDTokenClaims`: iss, sub, aud, email, exp — no nonce field. -/
structure googleIDTokenClaims where
  issuer : String
  subject : String
  audience : String
  email : String
  expiry : Int
deriving DecidableEq

/-- JSON-decoding a raw token into the Google claims struct: unknown
fields (the nonce among them) are dropped. -/
def googleDecodeClaims (r : RawIDTokenClaims) : googleIDTokenClaims :=
  { issuer := r.issuer, subject := r.subject, audience := r.audience,
    email := r.email, expiry := r.expiry }

/-- `appleIDTokenClaims`: includes nonce and email. -/
structure appleIDTokenClaims where
  issuer : String
  subject : String
  audience : String
  issuedAt : Int
  email : String
  expiry : Int
  nonce : String
  nonceSupported : Bool
  emailVerified : Bool
  isPrivateEmail : Bool
  realUserStatus : Int
deriving DecidableEq

/-- JSON-decoding a raw token into the Apple claims struct. -/
def appleDecodeClaims (r : RawIDTokenClaims) : appleIDTokenClaims :=
  { issuer := r.issuer, subject := r.subject, audience := r.audience,
    issuedAt := r.issuedAt, email := r.email, expiry := r.expiry,
    nonce := r.nonce, nonceSupported := r.nonceSupported,
    emailVerified := r.emailVerified, isPrivateEmail := r.isPrivateEmail,
    realUserStatus := r.realUserStatus }

/-- Google token-endpoint response. -/
structure tokenResponse where
  accessToken : String
  expiresIn : Int
  refreshToken : String
  scope : String
  tokenType : String
  idToken : String
deriving DecidableEq

/-- Apple token-endpoint response. -/
structure exchangeTokenResponse where
  accessToken : String
  tokenType : String
  expiresIn : Int
  refreshToken : String
  idToken : String
deriving DecidableEq

structure GoogleCredentials where
  clientID : String
  clientSecret : String
  privateKey : String
  authURI : String
  certsURL : String
  idTokenExpectedIssuer : String
  idTokenExpectedAud : String

structure AppleCredentials where
  clientID : String
  clientSecret : String
  teamID : String
  keyID : String
  certsURL : String
  authTokensURL : String
  idTokenExpectedAudience : String
  idTokenExpectedIssuer : String

def GoogleAuthCodeFieldName : String := "token"

def AppleIdentityTokenFieldName : String := "identityToken"

def AppleAuthorizationCodeFieldName : String := "authorizationCode"

def AppleUserIDFieldName : String := "userID"

def AppleNonceFieldName : String := "nonce"

def AppleEmailFieldName : String := "email"

/-- `guestAuthResult`. -/
structure guestAuthResult where
  ID : String
deriving DecidableEq

def guestAuthResult.getID (r : guestAuthResult) : String := r.ID

/-- `GuestProvider.Authenticate`: ignores the credential map and returns
the fixed id "guest-id". -/
def guestAuthenticate (_data : AuthData) : Except GoError guestAuthResult :=
  Except.ok { ID := "guest-id" }

structure googleAuthResult where
  ID : String
deriving DecidableEq

def googleAuthResult.getID (r : googleAuthResult) : String := r.ID

/-- `googleProvider.verifyIDToken`: parse, `Valid` check, then issuer and
audience equality — no nonce and no email check. (The Go claims type
assertion cannot fail for this parse call and is not modelled.) -/
def googleVerifyIDToken (cred : GoogleCredentials)
    (jwtParse : String → Except GoError JWTToken) (idToken : String) :
    Except GoError googleIDTokenClaims :=
  match jwtParse idToken with
  | Except.error e => Except.error (GoError.wrap ("token parse error " ++ idToken) e)
  | Except.ok token =>
    if !token.valid then Except.error (GoError.msg "invalid token")
    else
      let claims := googleDecodeClaims token.claims
      if claims.issuer ≠ cred.idTokenExpectedIssuer then
        Except.error (GoError.msg "invalid issuer")
      else if claims.audience ≠ cred.idTokenExpectedAud then
        Except.error (GoError.msg "invalid audience")
      else Except.ok claims

/-- `googleProvider.Authenticate`: require the "token" field, exchange the
code, verify the identity token, return the subject. -/
def googleAuthenticate (cred : GoogleCredentials)
    (exchange : String → Except GoError tokenResponse)
    (jwtParse : String → Except GoError JWTToken)
    (data : AuthData) : Except GoError googleAuthResult :=
  match mapGet data GoogleAuthCodeFieldName with
  | none => Except.error GoError.errMissingAuthData
  | some authToken =>
    match exchange authToken with
    | Except.error e => Except.error (GoError.wrap "failed to exchange auth code" e)
    | Except.ok resp =>
      match googleVerifyIDToken cred jwtParse resp.idToken with
      | Except.error e => Except.error (GoError.wrap "failed to verify id token" e)
      | Except.ok claims => Except.ok { ID := claims.subject }

structure appleAuthResult where
  ID : String
deriving DecidableEq

def appleAuthResult.getID (r : appleAuthResult) : String := r.ID

/-- `appleProvider.verifyIDToken`: parse, `Valid` check, then issuer,
audience, nonce, and — only when the supplied email is non-empty — email
equality. -/
def appleVerifyIDToken (cred : AppleCredentials)
    (jwtParse : String → Except GoError JWTToken)
    (idToken : String) (nonce : String) (email : String) :
    Except GoError appleIDTokenClaims :=
  match jwtParse idToken with
  | Except.error e => Except.error (GoError.wrap "token parser error" e)
  | Except.ok token =>
    if !token.valid then Except.error (GoError.msg "invalid token")
    else
      let claims := appleDecodeClaims token.claims
      if claims.issuer ≠ cred.idTokenExpectedIssuer then
        Except.error (GoError.msg "invalid issuer")
      else if claims.audience ≠ cred.idTokenExpectedAudience then
        Except.error (GoError.msg "invalid audience")
      else if claims.nonce ≠ nonce then
        Except.error (GoError.msg "invalid nonce")
      else if email ≠ "" ∧ email ≠ claims.email then
        Except.error (GoError.msg "invalid email")
      else Except.ok claims

/-- `appleProvider.Authenticate`: require the five fields, exchange the
authorization code, verify the exchanged identity token against nonce and
email, then cross-check the device-asserted userID against the subject. -/
def appleAuthenticate (cred : AppleCredentials)
    (exchange : String → Except GoError exchangeTokenResponse)
    (jwtParse : String → Except GoError JWTToken)
    (data : AuthData) : Except GoError appleAuthResult :=
  match mapGet data AppleIdentityTokenFieldName with
  | none => Except.error (GoError.msg ("missing required field: " ++ AppleIdentityTokenFieldName))
  | some _ =>
    match mapGet data AppleAuthorizationCodeFieldName with
    | none => Except.error (GoError.msg ("missing required field: " ++ AppleAuthorizationCodeFieldName))
    | some authCode =>
      match mapGet data AppleUserIDFieldName with
      | none => Except.error (GoError.msg ("missing required field: " ++ AppleUserIDFieldName))
      | some userID =>
        match mapGet data AppleNonceFieldName with
        | none => Except.error (GoError.msg ("missing required field: " ++ AppleNonceFieldName))
        | some nonce =>
          match mapGet data AppleEmailFieldName with
          | none => Except.error (GoError.msg ("missing required field: " ++ AppleEmailFieldName))
          | some email =>
            match exchange authCode with
            | Except.error e => Except.error (GoError.wrap "failed to exchange auth code" e)
            | Except.ok resp =>
              match appleVerifyIDToken cred jwtParse resp.idToken nonce email with
              | Except.error e => Except.error (GoError.wrap "failed to verify id token" e)
              | Except.ok claims =>
                if userID ≠ claims.subject then Except.error (GoError.msg "userID mismatch")
                else Except.ok { ID := claims.subject }

/-! ## Provider registry (`factory.go`) and orchestrator (`auth_service.go`)

A provider seen through the `ports.AuthProvider` interface: the
orchestrator only observes `result.GetID()`, so a registered provider is
its `Authenticate` composed with `GetID`. -/

def ProviderModel := AuthData → Except GoError String

def guestProviderM : ProviderModel :=
  fun data => (guestAuthenticate data).map guestAuthResult.getID

def googleProviderM (cred : GoogleCredentials)
    (exchange : String → Except GoError tokenResponse)
    (jwtParse : String → Except GoError JWTToken) : ProviderModel :=
  fun data => (googleAuthenticate cred exchange jwtParse data).map googleAuthResult.getID

def appleProviderM (cred : AppleCredentials)
    (exchange : String → Except GoError exchangeTokenResponse)
    (jwtParse : String → Except GoError JWTToken) : ProviderModel :=
  fun data => (appleAuthenticate cred exchange jwtParse data).map appleAuthResult.getID

/-- The `defaultFactory.registry` map as an association list. -/
def Registry := List (ProviderType × ProviderModel)

def registryLookup : List (ProviderType × ProviderModel) → ProviderType → Option ProviderModel
  | [], _ => none
  | (k, v) :: rest, pt => if k = pt then some v else registryLookup rest pt

/-- `defaultFactory.Get`: the registered provider, or
`domain.ErrProviderNotFound` verbatim. -/
def factoryGet (reg : Registry) (pt : ProviderType) : Except GoError ProviderModel :=
  match registryLookup reg pt with
  | some provider => Except.ok provider
  | none => Except.error GoError.errProviderNotFound

structure AuthenticateInput where
  providerType : ProviderType
  authData : AuthData

structure AuthenticateOutput where
  accountID : AccountID
  isNew : Bool
deriving DecidableEq

/-- The collaborators `authService` holds (telemetry, which never alters
control flow or data flow, is out of the modelled core). -/
structure AuthDeps where
  registry : Registry
  resolve : ProviderType → String → AccountID × Option GoError
  create : ProviderType → String → AccountID × Option GoError

/-- Observable operations of one `Authenticate` call, in order. -/
inductive AuthOp where
  | factoryGetOp (pt : ProviderType)
  | providerAuthOp (pt : ProviderType)
  | resolveOp (pt : ProviderType) (externalID : String)
  | createOp (pt : ProviderType) (externalID : String)
deriving DecidableEq

/-- `authService.Authenticate`: dispatch to the registered provider
(factory error propagated verbatim), authenticate (provider error
propagated verbatim), resolve; on `ErrAccountNotFound` (via `errors.Is`)
create and flag `IsNew`; wrap resolution and creation failures with their
phase. Alongside the Go result the model returns the ordered operation
log. -/
def authenticate (deps : AuthDeps) (input : AuthenticateInput) :
    Except GoError AuthenticateOutput × List AuthOp :=
  match factoryGet deps.registry input.providerType with
  | Except.error e => (Except.error e, [AuthOp.factoryGetOp input.providerType])
  | Except.ok provider =>
    match provider input.authData with
    | Except.error e =>
      (Except.error e,
        [AuthOp.factoryGetOp input.providerType, AuthOp.providerAuthOp input.providerType])
    | Except.ok extID =>
      match deps.resolve input.providerType extID with
      | (accountID, none) =>
        (Except.ok { accountID := accountID, isNew := false },
          [AuthOp.factoryGetOp input.providerType, AuthOp.providerAuthOp input.providerType,
            AuthOp.resolveOp input.providerType extID])
      | (_, some err) =>
        if errorIs err GoError.errAccountNotFound then
          match deps.create input.providerType extID with
          | (newAccountID, none) =>
            (Except.ok { accountID := newAccountID, isNew := true },
              [AuthOp.factoryGetOp input.providerType, AuthOp.providerAuthOp input.providerType,
                AuthOp.resolveOp input.providerType extID,
                AuthOp.createOp input.providerType extID])
          | (_, some e2) =>
            (Except.error (GoError.wrap "failed to create account" e2),
              [AuthOp.factoryGetOp input.providerType, AuthOp.providerAuthOp input.providerType,
                AuthOp.resolveOp input.providerType extID,
                AuthOp.createOp input.providerType extID])
        else
          (Except.error (GoError.wrap "failed to resolve account ID" err),
            [AuthOp.factoryGetOp input.providerType, AuthOp.providerAuthOp input.providerType,
              AuthOp.resolveOp input.providerType extID])

/-- C6: with no provider registered for the requested type, `Authenticate`
returns `ErrProviderNotFound` verbatim (the bare sentinel, not wrapped)
and performs no provider authentication and no repository operation. -/
theorem authenticate_provider_not_found_verbatim
    (deps : AuthDeps) (input : AuthenticateInput)
    (h : registryLookup deps.registry input.providerType = none) :
    authenticate deps input
      = (Except.error GoError.errProviderNotFound,
          [AuthOp.factoryGetOp input.providerType]) ∧
    ∀ pt eid, AuthOp.providerAuthOp pt ∉ (authenticate deps input).2 ∧
      AuthOp.resolveOp pt eid ∉ (authenticate deps input).2 ∧
      AuthOp.createOp pt eid ∉ (authenticate deps input).2 := by
  have hfac : factoryGet deps.registry input.providerType
      = Except.error GoError.errProviderNotFound := by
    simp [factoryGet, h]
  have hmain : authenticate deps input
      = (Except.error GoError.errProviderNotFound,
          [AuthOp.factoryGetOp input.providerType]) := by
    simp [authenticate, hfac]
  refine ⟨hmain, ?_⟩
  intro pt eid
  rw [hmain]
  simp

/-- Dependencies with an empty registry, for the C6 witness. -/
def emptyRegistryDeps : AuthDeps :=
  { registry := [],
    resolve := fun _ _ => (EmptyAccountID, some GoError.errAccountNotFound),
    create := fun _ _ => ("acct-1", none) }

/-- Witness for C6 at a concrete unregistered provider type. -/
theorem authenticate_provider_not_found_verbatim_witness :
    authenticate emptyRegistryDeps
        { providerType := ProviderTypeGuest, authData := [("id", "device-123")] }
      = (Except.error GoError.errProviderNotFound,
          [AuthOp.factoryGetOp ProviderTypeGuest]) :=
  (authenticate_provider_not_found_verbatim emptyRegistryDeps
    { providerType := ProviderTypeGuest, authData := [("id", "device-123")] } rfl).1

/-- C2: when the dispatched provider succeeds with subject id `S`, the
orchestrator returns the resolved AccountID with `IsNew = false` if
resolution succeeds, and if resolution fails with the `AccountNotFound`
sentinel it calls `Create` for the same (providerType, S) and, on
success, returns the created AccountID with `IsNew = true`. -/
theorem authenticate_resolve_or_create
    (deps : AuthDeps) (input : AuthenticateInput)
    (prov : ProviderModel) (S : String)
    (hp : registryLookup deps.registry input.providerType = some prov)
    (hs : prov input.authData = Except.ok S) :
    (∀ aid, deps.resolve input.providerType S = (aid, none) →
      (authenticate deps input).1
        = Except.ok { accountID := aid, isNew := false }) ∧
    (∀ aid e aid2, deps.resolve input.providerType S = (aid, some e) →
      errorIs e GoError.errAccountNotFound = true →
      deps.create input.providerType S = (aid2, none) →
      (authenticate deps input).1
          = Except.ok { accountID := aid2, isNew := true } ∧
        AuthOp.createOp input.providerType S ∈ (authenticate deps input).2) := by
  have hfac : factoryGet deps.registry input.providerType = Except.ok prov := by
    simp [factoryGet, hp]
  constructor
  · intro aid hres
    simp [authenticate, hfac, hs, hres]
  · intro aid e aid2 hres herr hcreate
    constructor
    · simp [authenticate, hfac, hs, hres, herr, hcreate]
    · simp [authenticate, hfac, hs, hres, herr, hcreate]

/-- Dependencies whose store already links the guest subject, for the C2
witness. -/
def resolvedDeps : AuthDeps :=
  { registry := [(ProviderTypeGuest, guestProviderM)],
    resolve := fun _ _ => ("acct-9", none),
    create := fun _ _ => ("acct-new", none) }

/-- Dependencies whose store has no link yet, for the C2 witness. -/
def unresolvedDeps : AuthDeps :=
  { registry := [(ProviderTypeGuest, guestProviderM)],
    resolve := fun _ _ => (EmptyAccountID, some GoError.errAccountNotFound),
    create := fun _ _ => ("acct-new", none) }

/-- Witness for C2: both branches at concrete dependencies. -/
theorem authenticate_resolve_or_create_witness :
    (authenticate resolvedDeps
        { providerType := ProviderTypeGuest, authData := [] }).1
      = Except.ok { accountID := "acct-9", isNew := false } ∧
    (authenticate unresolvedDeps
        { providerType := ProviderTypeGuest, authData := [] }).1
      = Except.ok { accountID := "acct-new", isNew := true } :=
  ⟨(authenticate_resolve_or_create resolvedDeps
      { providerType := ProviderTypeGuest, authData := [] }
      guestProviderM "guest-id" rfl rfl).1 "acct-9" rfl,
   ((authenticate_resolve_or_create unresolvedDeps
      { providerType := ProviderTypeGuest, authData := [] }
      guestProviderM "guest-id" rfl rfl).2 EmptyAccountID
      GoError.errAccountNotFound "acct-new" rfl (by decide) rfl).1⟩

/-- C8: when creation fails with an error matching the already-exists
sentinel (the creation race), the orchestrator returns that error wrapped
with the creation phase context, and the wrapped error still matches
`ErrProviderIDOrAccountAlreadyExists` under `errors.Is`. -/
theorem authenticate_create_race_matches_already_exists
    (deps : AuthDeps) (input : AuthenticateInput)
    (prov : ProviderModel) (S : String) (aid aid2 : String) (e ce : GoError)
    (hp : registryLookup deps.registry input.providerType = some prov)
    (hs : prov input.authData = Except.ok S)
    (hres : deps.resolve input.providerType S = (aid, some e))
    (herr : errorIs e GoError.errAccountNotFound = true)
    (hcreate : deps.create input.providerType S = (aid2, some ce))
    (hce : errorIs ce GoError.errAlreadyExists = true) :
    (authenticate deps input).1
        = Except.error (GoError.wrap "failed to create account" ce) ∧
    GoError.wrap "failed to create account" ce ≠ GoError.errAlreadyExists ∧
    errorIs (GoError.wrap "failed to create account" ce)
      GoError.errAlreadyExists = true := by
  have hfac : factoryGet deps.registry input.providerType = Except.ok prov := by
    simp [factoryGet, hp]
  refine ⟨?_, by simp, ?_⟩
  · simp [authenticate, hfac, hs, hres, herr, hcreate]
  · simp [errorIs, hce]

/-- Dependencies wiring the real repository `Create` path under a store
that rejects the transaction with a conditional-check failure, for the C8
witness. -/
def raceDeps : AuthDeps :=
  { registry := [(ProviderTypeGuest, guestProviderM)],
    resolve := fun _ _ => (EmptyAccountID, some GoError.errAccountNotFound),
    create := fun pt eid =>
      (repoCreate ccfClient "accounts" pt eid "aid-1" "2024-01-01T00:00:00Z").1 }

/-- Witness for C8: the end-to-end pipeline under a racing store returns
a wrapped error that still matches the already-exists sentinel. -/
theorem authenticate_create_race_matches_already_exists_witness :
    (authenticate raceDeps
        { providerType := ProviderTypeGuest, authData := [("id", "d")] }).1
      = Except.error (GoError.wrap "failed to create account"
          (GoError.wrap "failed to execute transaction when creating account"
            GoError.errAlreadyExists)) ∧
    errorIs (GoError.wrap "failed to create account"
        (GoError.wrap "failed to execute transaction when creating account"
          GoError.errAlreadyExists)) GoError.errAlreadyExists = true := by
  have h := authenticate_create_race_matches_already_exists raceDeps
    { providerType := ProviderTypeGuest, authData := [("id", "d")] }
    guestProviderM "guest-id" EmptyAccountID EmptyAccountID
    GoError.errAccountNotFound
    (GoError.wrap "failed to execute transaction when creating account"
      GoError.errAlreadyExists)
    rfl rfl rfl (by decide) rfl (by decide)
  exact ⟨h.1, h.2.2⟩

/-- C4 (evaluated at the failing input): the Guest provider ignores the
supplied "id" value and returns the fixed subject "guest-id", so
`GetID()` differs from the supplied client-generated identifier. -/
theorem guest_authenticate_ignores_supplied_id :
    mapGet [("id", "device-123")] "id" = some "device-123" ∧
    (guestAuthenticate [("id", "device-123")]).map guestAuthResult.getID
      = Except.ok "guest-id" ∧
    ("guest-id" : String) ≠ "device-123" :=
  ⟨rfl, rfl, by decide⟩

/-- Google credentials used in the C5 counterexample. -/
def googleTestCred : GoogleCredentials :=
  { clientID := "cid", clientSecret := "cs", privateKey := "",
    authURI := "https://oauth.example/token", certsURL := "https://certs.example",
    idTokenExpectedIssuer := "https://accounts.google.com",
    idTokenExpectedAud := "myapp" }

/-- An exchanged identity token whose nonce claim is "token-nonce" but
which otherwise verifies (valid signature, expected issuer and audience). -/
def googleNonceToken : JWTToken :=
  { valid := true,
    claims := { issuer := "https://accounts.google.com", subject := "sub-1",
                audience := "myapp", email := "u@example.com",
                expiry := 2000000000, issuedAt := 1700000000,
                nonce := "token-nonce", nonceSupported := true,
                emailVerified := true, isPrivateEmail := false,
                realUserStatus := 0 } }

/-- A token endpoint that accepts the authorization code. -/
def googleNonceExchange : String → Except GoError tokenResponse :=
  fun _ => Except.ok
    { accessToken := "at", expiresIn := 3600, refreshToken := "",
      scope := "openid", tokenType := "Bearer", idToken := "idtok-1" }

/-- A parser that accepts the exchanged token (signature valid). -/
def googleNonceParse : String → Except GoError JWTToken :=
  fun _ => Except.ok googleNonceToken

/-- Orchestrator dependencies for the C5 counterexample: the Google
provider is registered and the store has no account yet. -/
def googleNonceDeps : AuthDeps :=
  { registry := [(ProviderTypeGoogle,
      googleProviderM googleTestCred googleNonceExchange googleNonceParse)],
    resolve := fun _ _ => (EmptyAccountID, some GoError.errAccountNotFound),
    create := fun _ _ => ("acct-1", none) }

/-- C5 counterexample: a Google call whose exchanged identity token
carries nonce claim "token-nonce" while the client supplied nonce
"client-nonce" does not fail — the Google provider never compares nonces —
and an account is created, refuting the claim at this input. -/
theorem google_nonce_mismatch_call_succeeds :
    googleNonceToken.claims.nonce = "token-nonce" ∧
    mapGet [(GoogleAuthCodeFieldName, "authcode-1"), ("nonce", "client-nonce")]
        "nonce" = some "client-nonce" ∧
    ("token-nonce" : String) ≠ "client-nonce" ∧
    authenticate googleNonceDeps
        { providerType := ProviderTypeGoogle,
          authData := [(GoogleAuthCodeFieldName, "authcode-1"),
                       ("nonce", "client-nonce")] }
      = (Except.ok { accountID := "acct-1", isNew := true },
          [AuthOp.factoryGetOp ProviderTypeGoogle,
           AuthOp.providerAuthOp ProviderTypeGoogle,
           AuthOp.resolveOp ProviderTypeGoogle "sub-1",
           AuthOp.createOp ProviderTypeGoogle "sub-1"]) :=
  ⟨rfl, rfl, by decide, rfl⟩

lemma appleVerifyIDToken_error_of_nonce_mismatch
    (cred : AppleCredentials) (jwtParse : String → Except GoError JWTToken)
    (idTok n email : String)
    (hmis : ∀ tok, jwtParse idTok = Except.ok tok →
      (appleDecodeClaims tok.claims).nonce ≠ n) :
    ∃ E, appleVerifyIDToken cred jwtParse idTok n email = Except.error E := by
  cases htok : jwtParse idTok with
  | error e =>
    exact ⟨GoError.wrap "token parser error" e, by simp [appleVerifyIDToken, htok]⟩
  | ok tok =>
    have hne := hmis tok htok
    cases hv : tok.valid with
    | false =>
      exact ⟨GoError.msg "invalid token", by simp [appleVerifyIDToken, htok, hv]⟩
    | true =>
      by_cases h1 : (appleDecodeClaims tok.claims).issuer ≠ cred.idTokenExpectedIssuer
      · exact ⟨GoError.msg "invalid issuer",
          by simp [appleVerifyIDToken, htok, hv, h1]⟩
      · by_cases h2 : (appleDecodeClaims tok.claims).audience
            ≠ cred.idTokenExpectedAudience
        · exact ⟨GoError.msg "invalid audience",
            by simp [appleVerifyIDToken, htok, hv, h1, h2]⟩
        · exact ⟨GoError.msg "invalid nonce",
            by simp [appleVerifyIDToken, htok, hv, h1, h2, hne]⟩

lemma appleAuthenticate_error_of_nonce_mismatch
    (cred : AppleCredentials)
    (exchange : String → Except GoError exchangeTokenResponse)
    (jwtParse : String → Except GoError JWTToken)
    (data : AuthData) (n : String)
    (hn : mapGet data AppleNonceFieldName = some n)
    (hmis : ∀ idTok tok, jwtParse idTok = Except.ok tok →
      (appleDecodeClaims tok.claims).nonce ≠ n) :
    ∃ E, appleAuthenticate cred exchange jwtParse data = Except.error E := by
  cases h1 : mapGet data AppleIdentityTokenFieldName with
  | none =>
    exact ⟨GoError.msg ("missing required field: " ++ AppleIdentityTokenFieldName),
      by simp [appleAuthenticate, h1]⟩
  | some idt =>
    cases h2 : mapGet data AppleAuthorizationCodeFieldName with
    | none =>
      exact ⟨GoError.msg ("missing required field: " ++ AppleAuthorizationCodeFieldName),
        by simp [appleAuthenticate, h1, h2]⟩
    | some authCode =>
      cases h3 : mapGet data AppleUserIDFieldName with
      | none =>
        exact ⟨GoError.msg ("missing required field: " ++ AppleUserIDFieldName),
          by simp [appleAuthenticate, h1, h2, h3]⟩
      | some userID =>
        cases h5 : mapGet data AppleEmailFieldName with
        | none =>
          exact ⟨GoError.msg ("missing required field: " ++ AppleEmailFieldName),
            by simp [appleAuthenticate, h1, h2, h3, hn, h5]⟩
        | some email =>
          cases h6 : exchange authCode with
          | error e =>
            exact ⟨GoError.wrap "failed to exchange auth code" e,
              by simp [appleAuthenticate, h1, h2, h3, hn, h5, h6]⟩
          | ok resp =>
            rcases appleVerifyIDToken_error_of_nonce_mismatch cred jwtParse
              resp.idToken n email (fun tok htok => hmis resp.idToken tok htok)
              with ⟨E, hE⟩
            exact ⟨GoError.wrap "failed to verify id token" E,
              by simp [appleAuthenticate, h1, h2, h3, hn, h5, h6, hE]⟩

/-- C5 (amended): nonce verification belongs to the Apple provider: for
every Apple authentication call, when the exchanged identity token's
nonce claim does not match the client-supplied nonce the call fails and
no account is resolved or created (the Google provider performs no nonce
check, as the counterexample shows). -/
theorem apple_nonce_mismatch_fails
    (cred : AppleCredentials)
    (exchange : String → Except GoError exchangeTokenResponse)
    (jwtParse : String → Except GoError JWTToken)
    (resolve create : ProviderType → String → AccountID × Option GoError)
    (data : AuthData) (n : String)
    (hn : mapGet data AppleNonceFieldName = some n)
    (hmis : ∀ idTok tok, jwtParse idTok = Except.ok tok →
      (appleDecodeClaims tok.claims).nonce ≠ n) :
    (∃ E, (authenticate
        { registry := [(ProviderTypeApple, appleProviderM cred exchange jwtParse)],
          resolve := resolve, create := create }
        { providerType := ProviderTypeApple, authData := data }).1
      = Except.error E) ∧
    (authenticate
        { registry := [(ProviderTypeApple, appleProviderM cred exchange jwtParse)],
          resolve := resolve, create := create }
        { providerType := ProviderTypeApple, authData := data }).2
      = [AuthOp.factoryGetOp ProviderTypeApple,
         AuthOp.providerAuthOp ProviderTypeApple] := by
  rcases appleAuthenticate_error_of_nonce_mismatch cred exchange jwtParse data n
    hn hmis with ⟨E, hE⟩
  have hprov : appleProviderM cred exchange jwtParse data = Except.error E := by
    simp [appleProviderM, hE, Except.map]
  have hfac : factoryGet
      [(ProviderTypeApple, appleProviderM cred exchange jwtParse)]
      ProviderTypeApple = Except.ok (appleProviderM cred exchange jwtParse) := by
    simp [factoryGet, registryLookup]
  constructor
  · exact ⟨E, by simp [authenticate, hfac, hprov]⟩
  · simp [authenticate, hfac, hprov]

/-- Apple credentials matching `appleNonceToken`, for the C5 witness. -/
def appleTestCred : AppleCredentials :=
  { clientID := "app.bundle", clientSecret := "secret", teamID := "team",
    keyID := "key", certsURL := "https://appleid.example/keys",
    authTokensURL := "https://appleid.example/token",
    idTokenExpectedAudience := "app.bundle",
    idTokenExpectedIssuer := "https://appleid.apple.com" }

/-- An Apple identity token carrying nonce claim "bad-nonce". -/
def appleNonceToken : JWTToken :=
  { valid := true,
    claims := { issuer := "https://appleid.apple.com", subject := "apple-sub",
                audience := "app.bundle", email := "u@example.com",
                expiry := 2000000000, issuedAt := 1700000000,
                nonce := "bad-nonce", nonceSupported := true,
                emailVerified := true, isPrivateEmail := false,
                realUserStatus := 1 } }

def appleNonceExchange : String → Except GoError exchangeTokenResponse :=
  fun _ => Except.ok
    { accessToken := "at", tokenType := "Bearer",
      expiresIn := 3600, refreshToken := "", idToken := "apple-idtok" }

def appleNonceParse : String → Except GoError JWTToken :=
  fun _ => Except.ok appleNonceToken

/-- The full Apple credential map with client nonce "good-nonce". -/
def appleNonceData : AuthData :=
  [(AppleIdentityTokenFieldName, "direct-idtok"),
   (AppleAuthorizationCodeFieldName, "authcode"),
   (AppleUserIDFieldName, "apple-sub"),
   (AppleNonceFieldName, "good-nonce"),
   (AppleEmailFieldName, "u@example.com")]

/-- Witness for the amended C5 at concrete inputs. -/
theorem apple_nonce_mismatch_fails_witness :
    (∃ E, (authenticate
        { registry := [(ProviderTypeApple,
            appleProviderM appleTestCred appleNonceExchange appleNonceParse)],
          resolve := fun _ _ => (EmptyAccountID, some GoError.errAccountNotFound),
          create := fun _ _ => ("acct-1", none) }
        { providerType := ProviderTypeApple, authData := appleNonceData }).1
      = Except.error E) ∧
    (authenticate
        { registry := [(ProviderTypeApple,
            appleProviderM appleTestCred appleNonceExchange appleNonceParse)],
          resolve := fun _ _ => (EmptyAccountID, some GoError.errAccountNotFound),
          create := fun _ _ => ("acct-1", none) }
        { providerType := ProviderTypeApple, authData := appleNonceData }).2
      = [AuthOp.factoryGetOp ProviderTypeApple,
         AuthOp.providerAuthOp ProviderTypeApple] :=
  apple_nonce_mismatch_fails appleTestCred appleNonceExchange appleNonceParse
    (fun _ _ => (EmptyAccountID, some GoError.errAccountNotFound))
    (fun _ _ => ("acct-1", none)) appleNonceData "good-nonce" rfl
    (by intro idTok tok h
        cases h
        decide)

/-- C10: the Apple provider requires the email key to be present in the
credential map (otherwise Authenticate fails with the missing-required-
field error), but an empty supplied email skips the email-equality check
entirely — verification succeeds whatever email claim the token carries —
while a non-empty supplied email differing from the token's email claim
makes verification fail. -/
theorem apple_email_required_and_empty_email_skips_check
    (cred : AppleCredentials)
    (exchange : String → Except GoError exchangeTokenResponse)
    (jwtParse : String → Except GoError JWTToken)
    (data : AuthData) (idt authCode userID n idTok email : String)
    (tok : JWTToken) (claims2 : appleIDTokenClaims) :
    (mapGet data AppleIdentityTokenFieldName = some idt →
     mapGet data AppleAuthorizationCodeFieldName = some authCode →
     mapGet data AppleUserIDFieldName = some userID →
     mapGet data AppleNonceFieldName = some n →
     mapGet data AppleEmailFieldName = none →
     appleAuthenticate cred exchange jwtParse data
       = Except.error (GoError.msg ("missing required field: " ++ AppleEmailFieldName))) ∧
    (jwtParse idTok = Except.ok tok → tok.valid = true →
     (appleDecodeClaims tok.claims).issuer = cred.idTokenExpectedIssuer →
     (appleDecodeClaims tok.claims).audience = cred.idTokenExpectedAudience →
     (appleDecodeClaims tok.claims).nonce = n →
     appleVerifyIDToken cred jwtParse idTok n ""
       = Except.ok (appleDecodeClaims tok.claims)) ∧
    (jwtParse idTok = Except.ok tok → email ≠ "" →
     (appleDecodeClaims tok.claims).email ≠ email →
     appleVerifyIDToken cred jwtParse idTok n email ≠ Except.ok claims2) := by
  refine ⟨?_, ?_, ?_⟩
  · intro h1 h2 h3 h4 h5
    simp [appleAuthenticate, h1, h2, h3, h4, h5]
  · intro htok hv hiss haud hnonce
    simp [appleVerifyIDToken, htok, hv, hiss, haud, hnonce]
  · intro htok hne hmail hcontra
    cases hv : tok.valid with
    | false => simp [appleVerifyIDToken, htok, hv] at hcontra
    | true =>
      by_cases h1 : (appleDecodeClaims tok.claims).issuer ≠ cred.idTokenExpectedIssuer
      · simp [appleVerifyIDToken, htok, hv, h1] at hcontra
      · by_cases h2 : (appleDecodeClaims tok.claims).audience
            ≠ cred.idTokenExpectedAudience
        · simp [appleVerifyIDToken, htok, hv, h1, h2] at hcontra
        · by_cases h3 : (appleDecodeClaims tok.claims).nonce ≠ n
          · simp [appleVerifyIDToken, htok, hv, h1, h2, h3] at hcontra
          · have hmail2 : email ≠ (appleDecodeClaims tok.claims).email :=
              fun h => hmail h.symm
            simp [appleVerifyIDToken, htok, hv, h1, h2, h3, hne, hmail2] at hcontra

/-- The Apple credential map with every required field except email, for
the C10 witness. -/
def appleDataNoEmail : AuthData :=
  [(AppleIdentityTokenFieldName, "direct-idtok"),
   (AppleAuthorizationCodeFieldName, "authcode"),
   (AppleUserIDFieldName, "apple-sub"),
   (AppleNonceFieldName, "bad-nonce")]

/-- Witness for C10: at concrete inputs, the missing email key fails the
call; an empty email verifies against a token carrying
"u@example.com"; a non-empty mismatching email fails verification. -/
theorem apple_email_required_and_empty_email_skips_check_witness :
    appleAuthenticate appleTestCred appleNonceExchange appleNonceParse
        appleDataNoEmail
      = Except.error (GoError.msg ("missing required field: " ++ AppleEmailFieldName)) ∧
    appleVerifyIDToken appleTestCred appleNonceParse "t" "bad-nonce" ""
      = Except.ok (appleDecodeClaims appleNonceToken.claims) ∧
    appleVerifyIDToken appleTestCred appleNonceParse "t" "bad-nonce" "other@example.com"
      ≠ Except.ok (appleDecodeClaims appleNonceToken.claims) :=
  ⟨(apple_email_required_and_empty_email_skips_check appleTestCred
      appleNonceExchange appleNonceParse appleDataNoEmail "direct-idtok"
      "authcode" "apple-sub" "bad-nonce" "t" "" appleNonceToken
      (appleDecodeClaims appleNonceToken.claims)).1 rfl rfl rfl rfl rfl,
   (apple_email_required_and_empty_email_skips_check appleTestCred
      appleNonceExchange appleNonceParse appleDataNoEmail "direct-idtok"
      "authcode" "apple-sub" "bad-nonce" "t" "" appleNonceToken
      (appleDecodeClaims appleNonceToken.claims)).2.1 rfl rfl rfl rfl rfl,
   (apple_email_required_and_empty_email_skips_check appleTestCred
      appleNonceExchange appleNonceParse appleDataNoEmail "direct-idtok"
      "authcode" "apple-sub" "bad-nonce" "t" "other@example.com" appleNonceToken
      (appleDecodeClaims appleNonceToken.claims)).2.2 rfl (by decide) (by decide)⟩
